import Mathlib

/-!
Verification of the NCVotes raw-voter bulk-load pipeline.

This file is a shallow embedding of the parts of the repository that the
specification's testable properties talk about:

* `calculate_age_group` — the derived-field computer defined inside the chunk
  loop of `src/etl/load_raw_voters.py` (lines 101–117);
* `get_latest_file` — the manifest lookup of `src/scraper/manifest.py`
  (lines 75–95);
* `load_raw_voters` — the truncate-then-load refresh controller of
  `src/etl/load_raw_voters.py` (lines 27–158).

Python strings are modelled as Lean `String`s; `pandas` missing values (NaN)
are modelled with `Option`; the database table `raw.raw_voters` is modelled as
a list of rows, each row an association list from column name to optional cell
value.  External failure sources that the code reacts to (a bulk insert
raising, the notification email raising) are injected through the environment.
-/

namespace NCVotes

/-! ## Python string primitives

The loader manipulates strings with `str.strip`, `str.replace('"', '')`,
`str.isdigit` and `int(...)`.  Lean's built-in `String` functions do not
reduce inside the kernel, so we model them by structural recursion over the
character list of the string, with the same semantics on the ASCII data this
pipeline handles. -/

/-- Characters removed by Python's `str.strip()` (ASCII whitespace). -/
def isSpaceChar (c : Char) : Bool :=
  c = ' ' || c = '\t' || c = '\n' || c = '\r' || c = '\x0b' || c = '\x0c'

/-- Remove leading and trailing whitespace characters, as `str.strip()`. -/
def stripChars (l : List Char) : List Char :=
  ((l.dropWhile isSpaceChar).reverse.dropWhile isSpaceChar).reverse

/-- Header normalisation applied to every chunk's column names:
`chunk.columns.str.strip().str.replace('"', '')`. -/
def normalizeCol (s : String) : String :=
  ⟨(stripChars s.data).filter (fun c => c ≠ '"')⟩

/-- Python's `str(x).isdigit()` on the ASCII data this loader handles: a
non-empty string all of whose characters are decimal digits.  (Python's
`isdigit` also accepts some non-ASCII digit characters on which `int(...)`
then raises; the loader's bare `except` turns those into `'Unknown'`, the same
output this model produces for them, so the observable behaviour agrees.) -/
def pyIsDigitStr (s : String) : Bool :=
  !s.data.isEmpty && s.data.all Char.isDigit

/-- Value of `int(s)` for a string of decimal digits. -/
def digitsToNat (l : List Char) : Nat :=
  l.foldl (fun acc c => 10 * acc + (c.toNat - 48)) 0

/-! ## Derived-field computer: `calculate_age_group`
(`src/etl/load_raw_voters.py` lines 101–117). -/

/-- The age-group function defined inside the chunk loop of
`load_raw_voters`.  `current_year` is the loader's `datetime.now().year`;
`birth_year` is one cell of the `birth_year` column, `none` standing for a
pandas NaN (`pd.isna`).  The guard is exactly the source's
`pd.isna(birth_year) or not str(birth_year).isdigit()`, and the bucket chain
mirrors the source's `if/elif` chain on `age = current_year - int(birth_year)`. -/
def calculate_age_group (current_year : Int) (birth_year : Option String) : String :=
  match birth_year with
  | none => "Unknown"
  | some s =>
    if pyIsDigitStr s then
      let age : Int := current_year - (digitsToNat s.data : Int)
      if 18 ≤ age ∧ age ≤ 25 then "18-25"
      else if 26 ≤ age ∧ age ≤ 35 then "26-35"
      else if 36 ≤ age ∧ age ≤ 50 then "36-50"
      else if 51 ≤ age ∧ age ≤ 65 then "51-65"
      else if 65 < age then "65+"
      else "Unknown"
    else "Unknown"

/-! ## Manifest store: `get_latest_file`
(`src/scraper/manifest.py` lines 75–95). -/

/-- One entry of the JSON manifest (`manifest.py` `add_entry`). -/
structure ManifestEntry where
  filename : String
  url : String
  file_type : String
  downloaded_at : String
deriving Repr, DecidableEq

/-- Python's `max(xs, key=lambda x: x["downloaded_at"])` over a non-empty
list, written as a fold over the tail: the current best is replaced only when
a strictly greater key appears, so ties keep the earliest element, exactly as
CPython's `max`.  String comparison is the lexicographic order on the
character data, which is what Python's `<` on `str` computes for this data. -/
def pyMaxBy (x : ManifestEntry) (xs : List ManifestEntry) : ManifestEntry :=
  xs.foldl (fun best e =>
    if best.downloaded_at.data < e.downloaded_at.data then e else best) x

/-- `get_latest_file` from `manifest.py`: filter the manifest entries whose
`file_type` matches, return `None` (with a logged warning) when none match,
otherwise the entry with the maximum `downloaded_at`. -/
def get_latest_file (manifest : List ManifestEntry) (file_type : String) :
    Option ManifestEntry :=
  match manifest.filter (fun e => e.file_type == file_type) with
  | [] => none
  | x :: xs => some (pyMaxBy x xs)

/-! ## The loader's environment and the run model
(`src/etl/load_raw_voters.py` lines 27–158). -/

/-- A source file as the chunked `pd.read_csv(..., on_bad_lines='skip')`
sees it: a header line of column names, then data lines.  A data line is
`none` when it is malformed (pandas skips it) and otherwise a list of cell
values aligned with the header, a cell being `none` for a missing value
(pandas reads it as NaN; short lines are NaN-padded). -/
structure SourceFile where
  header : List String
  lines : List (Option (List (Option String)))
deriving Repr, DecidableEq

/-- One row of the `raw.raw_voters` table: column name to optional value. -/
abbrev Row := List (String × Option String)

/-- The log events `load_raw_voters` emits through `logger`, with the counts
they carry.  This enumerates every `logger.*` call of the function that
carries run data: "No voter data file found in manifest", "File not found",
"Total rows to process: N", "Table already has N rows" (warning) together with
the truncation notices, the periodic progress lines, "Successfully loaded N
voter records", the email-notification outcome, and the top-level
"Failed to load raw voter data" error.  (Constant informational lines such as
"Counting total rows..." carry no data and are not modelled.) -/
inductive LogMsg where
  | noFileFound
  | fileNotFound
  | totalRows (n : Nat)
  | tableHasRows (n : Nat)
  | truncated
  | progress (loaded total : Nat)
  | loadedRecords (n : Nat)
  | emailSent
  | emailFailed
  | loadFailed
deriving Repr, DecidableEq

/-- The skipped-line count carried by a log event, if the event reports one.
`load_raw_voters` reads with `on_bad_lines='skip'`, which drops malformed
lines silently, and the function neither computes nor logs how many lines
were skipped: none of its log events carries such a count, so every
constructor maps to `none`. -/
def skippedLineReport : LogMsg → Option Nat
  | .noFileFound => none
  | .fileNotFound => none
  | .totalRows _ => none
  | .tableHasRows _ => none
  | .truncated => none
  | .progress _ _ => none
  | .loadedRecords _ => none
  | .emailSent => none
  | .emailFailed => none
  | .loadFailed => none

/-- The world a run of `load_raw_voters` interacts with: the manifest, the
files on disk under `RAW_DATA_DIR`, the current contents of
`raw.raw_voters`, which chunk-insert calls (`to_sql`, 1-based chunk counter)
the database makes raise, whether `send_update_email()` raises, the loader's
`datetime.now().year`, and the `chunksize` argument. -/
structure Env where
  manifest : List ManifestEntry
  files : List (String × SourceFile)
  dbRows : List Row
  insertFailChunks : List Nat
  emailFails : Bool
  current_year : Int
  chunksize : Nat

/-- The data lines pandas actually parses: malformed lines are skipped. -/
def goodLines (f : SourceFile) : List (List (Option String)) :=
  f.lines.filterMap id

/-- Split the parsed lines into successive chunks of `n` rows (the last chunk
may be shorter), as the `chunksize` argument of `pd.read_csv` does.  `cur`
accumulates the current chunk in reverse. -/
def chunkAcc (n : Nat) : List α → List α → List (List α)
  | [], cur => if cur.isEmpty then [] else [cur.reverse]
  | x :: xs, cur =>
    if (x :: cur).length = n then (x :: cur).reverse :: chunkAcc n xs []
    else chunkAcc n xs (x :: cur)

/-- The chunk sequence `pd.read_csv(..., chunksize := n)` yields. -/
def readChunks (n : Nat) (l : List α) : List (List α) :=
  chunkAcc n l []

/-- One row as `to_sql` writes it: the file's normalised columns paired with
the row's cells (short rows NaN-padded via `getD`), followed by the derived
`age_group` column computed from the row's `birth_year` cell. -/
def processRow (cols : List String) (year : Int) (row : List (Option String)) : Row :=
  (cols.enum.map (fun p => (p.2, row.getD p.1 none))) ++
    [("age_group", some (calculate_age_group year
      (row.getD (cols.indexOf "birth_year") none)))]

/-- An error aborting the chunk loop: `chunk['birth_year']` raising `KeyError`
when the column is absent, or `to_sql` raising on an insert. -/
inductive LoadErr where
  | keyError
  | insertError
deriving Repr, DecidableEq

/-- Outcome of the chunk loop: the error that aborted it (if any), the rows
appended to the table before stopping, the `rows_loaded` counter, and the
progress log lines emitted. -/
structure StreamOut where
  err : Option LoadErr
  rows : List Row
  loaded : Nat
  log : List LogMsg
deriving Repr, DecidableEq

/-- The chunk loop of `load_raw_voters` (lines 76–143): for each chunk,
increment `chunk_counter`, compute the `age_group` column (raising `KeyError`
if `birth_year` is not among the normalised columns), append the chunk to the
table via `to_sql` (which the environment may make raise), add `len(chunk)` to
`rows_loaded`, and emit a progress line when
`chunk_counter % 10 == 0 or rows_loaded % 100000 < chunksize`. -/
def streamLoad (year : Int) (failChunks : List Nat) (chunksize : Nat)
    (cols : List String) (totalRows : Nat) :
    List (List (List (Option String))) → Nat → Nat → List Row → List LogMsg → StreamOut
  | [], _counter, loaded, acc, log => ⟨none, acc, loaded, log⟩
  | chunk :: rest, counter, loaded, acc, log =>
    if "birth_year" ∈ cols then
      if (counter + 1) ∈ failChunks then ⟨some .insertError, acc, loaded, log⟩
      else
        streamLoad year failChunks chunksize cols totalRows rest (counter + 1)
          (loaded + chunk.length)
          (acc ++ chunk.map (processRow cols year))
          (if (counter + 1) % 10 = 0 ∨ (loaded + chunk.length) % 100000 < chunksize then
            log ++ [.progress (loaded + chunk.length) totalRows]
          else log)
    else ⟨some .keyError, acc, loaded, log⟩

/-- The chunk loop applied to a located source file, with the loop state
initialised as in the source (`rows_loaded = 0`, `chunk_counter = 0`). -/
def runStream (env : Env) (f : SourceFile) : StreamOut :=
  streamLoad env.current_year env.insertFailChunks env.chunksize
    (f.header.map normalizeCol) f.lines.length
    (readChunks env.chunksize (goodLines f)) 0 0 [] []

/-- Result of one run: the boolean `load_raw_voters` returns, the contents of
`raw.raw_voters` afterwards, and the emitted log. -/
structure RunResult where
  ok : Bool
  db : List Row
  log : List LogMsg
deriving Repr, DecidableEq

/-- The log lines emitted before the chunk loop starts: the total-line count,
and, when the table already has rows, the row-count warning and the
truncation notice (lines 54–70). -/
def preLog (env : Env) (f : SourceFile) : List LogMsg :=
  if 0 < env.dbRows.length then
    [LogMsg.totalRows f.lines.length, .tableHasRows env.dbRows.length, .truncated]
  else [LogMsg.totalRows f.lines.length]

/-- The table contents right after the conditional `TRUNCATE`: empty when the
table had rows, otherwise the (already empty) prior contents. -/
def postTruncate (env : Env) : List Row :=
  if 0 < env.dbRows.length then [] else env.dbRows

/-- The part of `load_raw_voters` that runs once the source file has been
located (lines 51–154): count the file's data lines for progress reporting,
query the existing row count and `TRUNCATE` the table when it is positive,
run the chunk loop, and on its success log the loaded count, attempt the
notification email (its failure only logged as a warning), and return `True`.
An error aborting the chunk loop is caught by the function's top-level
`except`, logged, and converted into a `False` return; rows already inserted
stay in the (already truncated) table. -/
def finishRun (env : Env) (f : SourceFile) : RunResult :=
  match (runStream env f).err with
  | some _ =>
    ⟨false, postTruncate env ++ (runStream env f).rows,
      preLog env f ++ (runStream env f).log ++ [.loadFailed]⟩
  | none =>
    ⟨true, postTruncate env ++ (runStream env f).rows,
      preLog env f ++ (runStream env f).log ++
        (if env.emailFails then
          [LogMsg.loadedRecords (runStream env f).loaded, .emailFailed]
         else [LogMsg.loadedRecords (runStream env f).loaded, .emailSent])⟩

/-- `load_raw_voters` (lines 27–158).  Look up the latest `registration_data`
manifest entry (early `return False` when there is none), check the file
exists on disk (early `return False` otherwise), then proceed with the
located file as in `finishRun`.  The function never raises: every modelled
failure is converted into a `False` return. -/
def load_raw_voters (env : Env) : RunResult :=
  match get_latest_file env.manifest "registration_data" with
  | none => ⟨false, env.dbRows, [.noFileFound]⟩
  | some entry =>
    match env.files.lookup entry.filename with
    | none => ⟨false, env.dbRows, [.fileNotFound]⟩
    | some f => finishRun env f

/-- The source file a run would load: the latest `registration_data` manifest
entry's file, when that entry exists and the file is on disk. -/
def locatedFile (env : Env) : Option SourceFile :=
  match get_latest_file env.manifest "registration_data" with
  | none => none
  | some entry => env.files.lookup entry.filename

/-- The table contents a single successful load of file `f` produces: every
parsed line, in file order, processed into a table row. -/
def singleLoadRows (env : Env) (f : SourceFile) : List Row :=
  (goodLines f).map (processRow (f.header.map normalizeCol) env.current_year)

/-! ## Concrete test environments -/

/-- The manifest entry the concrete test environments share. -/
def sampleManifest : List ManifestEntry :=
  [⟨"ncvoter_Statewide.txt", "https://s3.amazonaws.com/dl.ncsbe.gov/data/ncvoter_Statewide.zip",
    "registration_data", "2025-06-01T00:00:00Z"⟩]

/-- The 2-row sample file of the spec's §8.7: birth years 1980 and 1975. -/
def sampleFile : SourceFile :=
  { header := ["ncid", "birth_year"]
    lines := [some [some "A1", some "1980"], some [some "A2", some "1975"]] }

/-- The 2-row sample scenario of the spec's §8.7: a well-formed source file
whose rows have birth years 1980 and 1975, loaded with the calendar year at
2025 into an empty table, with no injected failures. -/
def sampleEnv : Env :=
  { manifest := sampleManifest
    files := [("ncvoter_Statewide.txt", sampleFile)]
    dbRows := []
    insertFailChunks := []
    emailFails := false
    current_year := 2025
    chunksize := 10000 }

/-- A source file with two syntactically valid rows and one malformed line
(the `none` in the middle). -/
def skipFile : SourceFile :=
  { header := ["ncid", "birth_year"]
    lines := [some [some "A1", some "1980"], none, some [some "A2", some "1955"]] }

/-- The file with one malformed line, loaded with no injected failures. -/
def skipEnv : Env :=
  { manifest := sampleManifest
    files := [("ncvoter_Statewide.txt", skipFile)]
    dbRows := []
    insertFailChunks := []
    emailFails := false
    current_year := 2025
    chunksize := 10000 }

/-- A source file that is missing the expected `birth_year` column but has a
data row. -/
def missingColFile : SourceFile :=
  { header := ["ncid", "last_name"]
    lines := [some [some "A1", some "Doe"]] }

/-- The file without a `birth_year` column, loaded with no injected
failures. -/
def missingColEnv : Env :=
  { manifest := sampleManifest
    files := [("ncvoter_Statewide.txt", missingColFile)]
    dbRows := []
    insertFailChunks := []
    emailFails := false
    current_year := 2025
    chunksize := 10000 }

/-- An environment whose manifest has no `registration_data` entry, with a
non-empty target table. -/
def noSourceEnv : Env :=
  { manifest := [⟨"results.zip", "https://example.org/results.zip", "results_zip", "2025-01-01T00:00:00Z"⟩]
    files := []
    dbRows := [[("ncid", some "OLD1")], [("ncid", some "OLD2")]]
    insertFailChunks := []
    emailFails := false
    current_year := 2025
    chunksize := 10000 }

/-- The sample scenario with a failing notification email. -/
def sampleEnvEmailFail : Env := { sampleEnv with emailFails := true }

/-- Three `registration_data` manifest entries with distinct timestamps, not
in chronological order. -/
def threeEntryManifest : List ManifestEntry :=
  [⟨"b.zip", "https://example.org/b.zip", "registration_data", "2025-02-01T00:00:00Z"⟩,
   ⟨"c.zip", "https://example.org/c.zip", "registration_data", "2025-03-01T00:00:00Z"⟩,
   ⟨"a.zip", "https://example.org/a.zip", "registration_data", "2025-01-01T00:00:00Z"⟩]

/-! ## Theorems -/

/-- Concatenating the chunks recovers the parsed lines. -/
lemma chunkAcc_flatten (n : Nat) (l : List α) : ∀ cur : List α,
    (chunkAcc n l cur).flatten = cur.reverse ++ l := by
  induction l with
  | nil =>
    intro cur
    unfold chunkAcc
    split
    · next h => simp [List.isEmpty_iff.mp h]
    · next h => simp
  | cons x xs ih =>
    intro cur
    unfold chunkAcc
    split
    · next h => simp [ih []]
    · next h => rw [ih (x :: cur)]; simp

/-- The chunked reading of a file passes every parsed line through, in order. -/
lemma readChunks_flatten (n : Nat) (l : List α) : (readChunks n l).flatten = l := by
  unfold readChunks
  rw [chunkAcc_flatten]
  rfl

lemma chunkAcc_ne_nil (n : Nat) (l : List α) : ∀ cur : List α,
    cur ≠ [] → chunkAcc n l cur ≠ [] := by
  induction l with
  | nil =>
    intro cur h
    unfold chunkAcc
    split
    · next h2 => exact absurd (List.isEmpty_iff.mp h2) h
    · next h2 => exact List.cons_ne_nil _ _
  | cons x xs ih =>
    intro cur h
    unfold chunkAcc
    split
    · next h2 => exact List.cons_ne_nil _ _
    · next h2 => exact ih (x :: cur) (List.cons_ne_nil _ _)

/-- A non-empty parsed file yields at least one chunk. -/
lemma readChunks_ne_nil (n : Nat) (l : List α) (h : l ≠ []) : readChunks n l ≠ [] := by
  cases l with
  | nil => exact absurd rfl h
  | cons x xs =>
    unfold readChunks chunkAcc
    split
    · next h2 => exact List.cons_ne_nil _ _
    · next h2 => exact chunkAcc_ne_nil n xs [x] (List.cons_ne_nil _ _)

/-- When the chunk loop runs to completion, the rows appended to the table are
the accumulated rows followed by every row of every chunk, processed in
order. -/
lemma streamLoad_rows (year : Int) (fails : List Nat) (csz : Nat) (cols : List String)
    (total : Nat) (chunks : List (List (List (Option String)))) :
    ∀ (counter loaded : Nat) (acc : List Row) (log : List LogMsg),
    (streamLoad year fails csz cols total chunks counter loaded acc log).err = none →
    (streamLoad year fails csz cols total chunks counter loaded acc log).rows =
      acc ++ chunks.flatten.map (processRow cols year) := by
  induction chunks with
  | nil =>
    intro counter loaded acc log _
    simp [streamLoad]
  | cons chunk rest ih =>
    intro counter loaded acc log h
    unfold streamLoad at h ⊢
    by_cases hb : "birth_year" ∈ cols
    · rw [if_pos hb] at h ⊢
      by_cases hf : (counter + 1) ∈ fails
      · rw [if_pos hf] at h
        simp at h
      · rw [if_neg hf] at h ⊢
        rw [ih _ _ _ _ h]
        simp
    · rw [if_neg hb] at h
      simp at h

/-- The table contents after `finishRun` are exactly the rows the chunk loop
appended: the conditional `TRUNCATE` leaves an empty table in either case
(it fires when the table is non-empty). -/
lemma finishRun_db (env : Env) (f : SourceFile) :
    (finishRun env f).db = (runStream env f).rows := by
  have hbase : postTruncate env = [] := by
    unfold postTruncate
    split
    · rfl
    · next h => exact List.length_eq_zero.mp (by omega)
  unfold finishRun
  split <;> simp [hbase]

/-- `finishRun` reports success exactly when the chunk loop hit no error. -/
lemma finishRun_ok (env : Env) (f : SourceFile) :
    (finishRun env f).ok = true ↔ (runStream env f).err = none := by
  unfold finishRun
  split
  · next e h => simp [h]
  · next h => simp [h]

/-- When the source file is located, the run is `finishRun` on it. -/
lemma load_eq_finishRun (env : Env) (f : SourceFile) (hf : locatedFile env = some f) :
    load_raw_voters env = finishRun env f := by
  unfold locatedFile at hf
  unfold load_raw_voters
  split
  · next hg => rw [hg] at hf; cases hf
  · next entry hg =>
    rw [hg] at hf
    change env.files.lookup entry.filename = some f at hf
    split
    · next hl => rw [hl] at hf; cases hf
    · next f' hl =>
      rw [hl] at hf
      cases hf
      rfl

/-- When the source cannot be located, the run stops at one of the two early
`return False` branches. -/
lemma load_not_located (env : Env) (h : locatedFile env = none) :
    load_raw_voters env = ⟨false, env.dbRows, [.noFileFound]⟩ ∨
    load_raw_voters env = ⟨false, env.dbRows, [.fileNotFound]⟩ := by
  unfold locatedFile at h
  unfold load_raw_voters
  split
  · next hg => exact Or.inl rfl
  · next entry hg =>
    rw [hg] at h
    change env.files.lookup entry.filename = none at h
    split
    · next hl => exact Or.inr rfl
    · next f' hl => rw [hl] at h; cases h

/-- A successful run's table contents are exactly one full processed copy of
the located file, regardless of the table's prior contents. -/
lemma load_success_db (env : Env) (f : SourceFile) (hf : locatedFile env = some f)
    (hok : (load_raw_voters env).ok = true) :
    (load_raw_voters env).db = singleLoadRows env f := by
  rw [load_eq_finishRun env f hf] at hok ⊢
  have herr : (runStream env f).err = none := (finishRun_ok env f).mp hok
  rw [finishRun_db]
  unfold runStream at herr ⊢
  rw [streamLoad_rows _ _ _ _ _ _ _ _ _ _ herr]
  rw [readChunks_flatten]
  rfl

/-- Every log event maps to no skipped-line count. -/
lemma skippedLineReport_eq_none (m : LogMsg) : skippedLineReport m = none := by
  cases m <;> rfl

/-- No run log carries a skipped-line count. -/
lemma filterMap_skippedLineReport (log : List LogMsg) :
    log.filterMap skippedLineReport = [] :=
  List.filterMap_eq_nil_iff.mpr (fun m _ => skippedLineReport_eq_none m)

/-- Every row written by `to_sql` carries exactly the file's normalised
columns followed by the derived `age_group` column. -/
lemma processRow_fst (cols : List String) (year : Int) (row : List (Option String)) :
    (processRow cols year row).map Prod.fst = cols ++ ["age_group"] := by
  unfold processRow
  rw [List.map_append, List.map_map]
  have : (Prod.fst ∘ fun p : Nat × String => (p.2, row.getD p.1 none)) = Prod.snd := by
    funext p
    rfl
  rw [this, List.enum_map_snd]
  rfl

/-- `pyMaxBy` returns one of the candidates. -/
lemma pyMaxBy_mem (x : ManifestEntry) (xs : List ManifestEntry) :
    pyMaxBy x xs = x ∨ pyMaxBy x xs ∈ xs := by
  induction xs generalizing x with
  | nil => exact Or.inl rfl
  | cons e ys ih =>
    have hstep : pyMaxBy x (e :: ys) =
        pyMaxBy (if x.downloaded_at.data < e.downloaded_at.data then e else x) ys := by
      simp [pyMaxBy, List.foldl_cons]
    rw [hstep]
    rcases ih (if x.downloaded_at.data < e.downloaded_at.data then e else x) with h | h
    · rw [h]
      split
      · exact Or.inr (List.mem_cons_self _ _)
      · exact Or.inl rfl
    · exact Or.inr (List.mem_cons_of_mem _ h)

/-- `pyMaxBy` dominates every candidate's `downloaded_at`. -/
lemma pyMaxBy_ge (x : ManifestEntry) (xs : List ManifestEntry) :
    x.downloaded_at.data ≤ (pyMaxBy x xs).downloaded_at.data ∧
    ∀ y ∈ xs, y.downloaded_at.data ≤ (pyMaxBy x xs).downloaded_at.data := by
  induction xs generalizing x with
  | nil => exact ⟨le_refl _, by intro y hy; cases hy⟩
  | cons e ys ih =>
    have hstep : pyMaxBy x (e :: ys) =
        pyMaxBy (if x.downloaded_at.data < e.downloaded_at.data then e else x) ys := by
      simp [pyMaxBy, List.foldl_cons]
    rw [hstep]
    set b := if x.downloaded_at.data < e.downloaded_at.data then e else x with hb
    have hxb : x.downloaded_at.data ≤ b.downloaded_at.data := by
      rw [hb]; split
      · exact le_of_lt (by assumption)
      · exact le_refl _
    have heb : e.downloaded_at.data ≤ b.downloaded_at.data := by
      rw [hb]; split
      · exact le_refl _
      · exact le_of_not_lt (by assumption)
    rcases ih b with ⟨hble, hall⟩
    refine ⟨le_trans hxb hble, ?_⟩
    intro y hy
    rcases List.mem_cons.mp hy with rfl | hy'
    · exact le_trans heb hble
    · exact hall y hy'

/-- Two members of a list whose `downloaded_at`s are pairwise distinct and
that carry the same `downloaded_at` are the same member. -/
lemma pairwise_ne_inj {l : List ManifestEntry}
    (hp : l.Pairwise (fun a b => a.downloaded_at ≠ b.downloaded_at))
    {a b : ManifestEntry} (ha : a ∈ l) (hb : b ∈ l)
    (h : a.downloaded_at = b.downloaded_at) : a = b := by
  induction l with
  | nil => cases ha
  | cons x xs ih =>
    rcases List.pairwise_cons.mp hp with ⟨hx, hxs⟩
    rcases List.mem_cons.mp ha with rfl | ha'
    · rcases List.mem_cons.mp hb with rfl | hb'
      · rfl
      · exact absurd h (hx _ hb')
    · rcases List.mem_cons.mp hb with rfl | hb'
      · exact absurd h.symm (hx _ ha')
      · exact ih hxs ha' hb'

/-- Claim C8: `get_latest_file` returns `None` exactly when no manifest
entry has the requested file type; a returned entry is one of the matching
entries and its `downloaded_at` string is lexicographically maximal among
them; and when the matching entries' timestamps are pairwise distinct the
result is independent of the manifest's insertion order (invariant under
permutation). -/
theorem get_latest_file_C8 (manifest : List ManifestEntry) (t : String) :
    (get_latest_file manifest t = none ↔
      manifest.filter (fun e => e.file_type == t) = []) ∧
    (∀ e, get_latest_file manifest t = some e →
      e ∈ manifest.filter (fun e' => e'.file_type == t) ∧
      ∀ e' ∈ manifest.filter (fun e' => e'.file_type == t),
        e'.downloaded_at.data ≤ e.downloaded_at.data) ∧
    (∀ manifest' : List ManifestEntry, manifest.Perm manifest' →
      (manifest.filter (fun e => e.file_type == t)).Pairwise
        (fun a b => a.downloaded_at ≠ b.downloaded_at) →
      get_latest_file manifest t = get_latest_file manifest' t) := by
  have hmax : ∀ (x : ManifestEntry) (xs : List ManifestEntry),
      pyMaxBy x xs ∈ x :: xs ∧
      ∀ y ∈ x :: xs, y.downloaded_at.data ≤ (pyMaxBy x xs).downloaded_at.data := by
    intro x xs
    constructor
    · rcases pyMaxBy_mem x xs with h | h
      · rw [h]; exact List.mem_cons_self _ _
      · exact List.mem_cons_of_mem _ h
    · intro y hy
      rcases List.mem_cons.mp hy with rfl | hy'
      · exact (pyMaxBy_ge y xs).1
      · exact (pyMaxBy_ge x xs).2 y hy'
  refine ⟨?_, ?_, ?_⟩
  · unfold get_latest_file
    cases h : manifest.filter (fun e => e.file_type == t) with
    | nil => simp
    | cons x xs => simp
  · intro e he
    unfold get_latest_file at he
    cases h : manifest.filter (fun e' => e'.file_type == t) with
    | nil => rw [h] at he; cases he
    | cons x xs =>
      rw [h] at he
      cases he
      exact hmax x xs
  · intro m' hperm hpair
    have hpf : (manifest.filter (fun e => e.file_type == t)).Perm
        (m'.filter (fun e => e.file_type == t)) := hperm.filter _
    unfold get_latest_file
    cases h1 : manifest.filter (fun e => e.file_type == t) with
    | nil =>
      rw [h1] at hpf
      rw [hpf.nil_eq.symm]
    | cons x xs =>
      cases h2 : m'.filter (fun e => e.file_type == t) with
      | nil =>
        rw [h1, h2] at hpf
        cases hpf.eq_nil
      | cons y ys =>
        rw [h1, h2] at hpf
        rcases hmax x xs with ⟨hmem1, hge1⟩
        rcases hmax y ys with ⟨hmem2, hge2⟩
        have hm12 : pyMaxBy x xs ∈ y :: ys := hpf.mem_iff.mp hmem1
        have hm21 : pyMaxBy y ys ∈ x :: xs := hpf.mem_iff.mpr hmem2
        have hle1 : (pyMaxBy x xs).downloaded_at.data ≤ (pyMaxBy y ys).downloaded_at.data :=
          hge2 _ hm12
        have hle2 : (pyMaxBy y ys).downloaded_at.data ≤ (pyMaxBy x xs).downloaded_at.data :=
          hge1 _ hm21
        have heq : (pyMaxBy x xs).downloaded_at = (pyMaxBy y ys).downloaded_at :=
          String.ext (le_antisymm hle1 hle2)
        rw [h1] at hpair
        exact congrArg some (pairwise_ne_inj hpair hmem1 hm21 heq)

/-- Claim C8 witness: the theorem applied to three `registration_data`
entries with distinct timestamps inserted out of order; the second conjunct
instantiated at the computed result shows the maximal entry is selected. -/
theorem get_latest_file_C8_witness :
    get_latest_file threeEntryManifest "registration_data" =
      some ⟨"c.zip", "https://example.org/c.zip", "registration_data",
        "2025-03-01T00:00:00Z"⟩ ∧
    ∀ e' ∈ threeEntryManifest.filter (fun e => e.file_type == "registration_data"),
      e'.downloaded_at.data ≤
        (⟨"c.zip", "https://example.org/c.zip", "registration_data",
          "2025-03-01T00:00:00Z"⟩ : ManifestEntry).downloaded_at.data :=
  ⟨by decide,
    ((get_latest_file_C8 threeEntryManifest "registration_data").2.1 _ (by decide)).2⟩

/-- Claim C1 counterexample: the claim quantifies over every integer birth
year, but for the integer birth year −1 and reference year 2025 the computed
age 2026 is at least 18, yet `calculate_age_group` returns `Unknown` rather
than the bucket `65+` containing 2026, because `str(-1)` fails Python's
`isdigit` test. -/
theorem calculate_age_group_C1_counterexample :
    (18 : Int) ≤ 2025 - (-1 : Int) ∧
    calculate_age_group 2025 (some (toString (-1 : Int))) = "Unknown" ∧
    calculate_age_group 2025 (some (toString (-1 : Int))) ≠ "65+" := by decide

/-- Claim C1 amended: for every birth-year input that is a non-negative
integer literal (a non-empty all-digit string) with value B and every
reference year R, `calculate_age_group` returns `Unknown` iff R − B < 18,
and otherwise the unique bucket of [18,25], [26,35], [36,50], [51,65],
(65,∞) whose range contains R − B; every other input — a null, a non-numeric
string, or the string form of a negative integer, all of which fail the
digit test — yields `Unknown`. -/
theorem calculate_age_group_C1_amended (R : Int) (s : String) :
    calculate_age_group R none = "Unknown" ∧
    (pyIsDigitStr s = false → calculate_age_group R (some s) = "Unknown") ∧
    (pyIsDigitStr s = true →
      (calculate_age_group R (some s) = "Unknown" ↔ R - (digitsToNat s.data : Int) < 18) ∧
      (18 ≤ R - (digitsToNat s.data : Int) ∧ R - (digitsToNat s.data : Int) ≤ 25 →
        calculate_age_group R (some s) = "18-25") ∧
      (26 ≤ R - (digitsToNat s.data : Int) ∧ R - (digitsToNat s.data : Int) ≤ 35 →
        calculate_age_group R (some s) = "26-35") ∧
      (36 ≤ R - (digitsToNat s.data : Int) ∧ R - (digitsToNat s.data : Int) ≤ 50 →
        calculate_age_group R (some s) = "36-50") ∧
      (51 ≤ R - (digitsToNat s.data : Int) ∧ R - (digitsToNat s.data : Int) ≤ 65 →
        calculate_age_group R (some s) = "51-65") ∧
      (65 < R - (digitsToNat s.data : Int) →
        calculate_age_group R (some s) = "65+")) := by
  refine ⟨rfl, ?_, ?_⟩
  · intro h
    simp [calculate_age_group, h]
  · intro hs
    simp only [calculate_age_group, hs, if_true]
    set age := R - (digitsToNat s.data : Int) with hage
    refine ⟨?_, ?_, ?_, ?_, ?_, ?_⟩
    · split_ifs with h1 h2 h3 h4 h5
      · exact iff_of_false (by decide) (by omega)
      · exact iff_of_false (by decide) (by omega)
      · exact iff_of_false (by decide) (by omega)
      · exact iff_of_false (by decide) (by omega)
      · exact iff_of_false (by decide) (by omega)
      · exact iff_of_true rfl (by omega)
    · intro h
      split_ifs <;> first | rfl | omega
    · intro h
      split_ifs <;> first | rfl | omega
    · intro h
      split_ifs <;> first | rfl | omega
    · intro h
      split_ifs <;> first | rfl | omega
    · intro h
      split_ifs <;> first | rfl | omega

/-- Claim C1 witness: the amended theorem applied at reference year 2025 and
input "1980" (age 45, bucket 36-50). -/
theorem calculate_age_group_C1_witness :
    pyIsDigitStr "1980" = true ∧ calculate_age_group 2025 (some "1980") = "36-50" :=
  ⟨by decide, (((calculate_age_group_C1_amended 2025 "1980").2.2 (by decide)).2.2.2.1
    (by decide))⟩

/-- Claim C9: a record whose computed age is exactly 65 is assigned the age
group `51-65`, and `65+` is assigned exactly for ages strictly greater than
65 — the `if/elif` chain resolves the boundary at 65 in favour of `51-65`. -/
theorem calculate_age_group_C9 (R : Int) (s : String) (hs : pyIsDigitStr s = true) :
    (R - (digitsToNat s.data : Int) = 65 → calculate_age_group R (some s) = "51-65") ∧
    (calculate_age_group R (some s) = "65+" ↔ 65 < R - (digitsToNat s.data : Int)) := by
  simp only [calculate_age_group, hs, if_true]
  set age := R - (digitsToNat s.data : Int) with hage
  constructor
  · intro h
    split_ifs <;> first | rfl | omega
  · split_ifs with h1 h2 h3 h4 h5
    · exact iff_of_false (by decide) (by omega)
    · exact iff_of_false (by decide) (by omega)
    · exact iff_of_false (by decide) (by omega)
    · exact iff_of_false (by decide) (by omega)
    · exact iff_of_true rfl (by omega)
    · exact iff_of_false (by decide) (by omega)

/-- Claim C9 witness: the theorem applied at reference year 2025 and input
"1960" (age exactly 65). -/
theorem calculate_age_group_C9_witness :
    pyIsDigitStr "1960" = true ∧ calculate_age_group 2025 (some "1960") = "51-65" :=
  ⟨by decide, (calculate_age_group_C9 2025 "1960" (by decide)).1 (by decide)⟩

/-- Claim C4: `load_raw_voters` never lets a failure escape: it returns a
boolean for every environment, and that boolean is `True` exactly when the
source file was located (manifest entry present and file on disk) and the
chunk loop hit no error (no missing `birth_year` column, no raising insert).
Every caught failure — missing source, `KeyError`, insert error — yields
`False`; a raising notification email does not affect the result. -/
theorem load_raw_voters_C4 (env : Env) :
    (load_raw_voters env).ok = true ↔
      ∃ f, locatedFile env = some f ∧ (runStream env f).err = none := by
  constructor
  · intro h
    cases hc : locatedFile env with
    | none =>
      rcases load_not_located env hc with h2 | h2 <;> rw [h2] at h <;> simp at h
    | some f =>
      rw [load_eq_finishRun env f hc] at h
      exact ⟨f, rfl, (finishRun_ok env f).mp h⟩
  · rintro ⟨f, hf, herr⟩
    rw [load_eq_finishRun env f hf]
    exact (finishRun_ok env f).mpr herr

/-- Claim C4 witness: the theorem applied to the sample environment. -/
theorem load_raw_voters_C4_witness :
    (load_raw_voters sampleEnv).ok = true ↔
      ∃ f, locatedFile sampleEnv = some f ∧ (runStream sampleEnv f).err = none :=
  load_raw_voters_C4 sampleEnv

/-- Claim C10: when the manifest has no `registration_data` entry, or the
file referenced by the latest such entry is not on disk, the run returns
`False` with only the corresponding error logged — before any row count,
truncation or insert — and the target table's contents are unchanged. -/
theorem load_raw_voters_C10 (env : Env)
    (h : get_latest_file env.manifest "registration_data" = none ∨
      ∃ entry, get_latest_file env.manifest "registration_data" = some entry ∧
        env.files.lookup entry.filename = none) :
    (load_raw_voters env).ok = false ∧ (load_raw_voters env).db = env.dbRows ∧
    ((load_raw_voters env).log = [LogMsg.noFileFound] ∨
      (load_raw_voters env).log = [LogMsg.fileNotFound]) := by
  have hloc : locatedFile env = none := by
    unfold locatedFile
    rcases h with h | ⟨entry, h1, h2⟩
    · rw [h]
    · rw [h1]
      change env.files.lookup entry.filename = none
      exact h2
  rcases load_not_located env hloc with h2 | h2 <;> rw [h2]
  · exact ⟨rfl, rfl, Or.inl rfl⟩
  · exact ⟨rfl, rfl, Or.inr rfl⟩

/-- Claim C10 witness: the theorem applied to an environment whose manifest
has no `registration_data` entry and whose table holds two prior rows. -/
theorem load_raw_voters_C10_witness :
    (load_raw_voters noSourceEnv).ok = false ∧
    (load_raw_voters noSourceEnv).db = noSourceEnv.dbRows ∧
    ((load_raw_voters noSourceEnv).log = [LogMsg.noFileFound] ∨
      (load_raw_voters noSourceEnv).log = [LogMsg.fileNotFound]) :=
  load_raw_voters_C10 noSourceEnv (Or.inl (by decide))

/-- Claim C5: in a run whose chunk loop completes without error, a raising
`send_update_email` is caught and only logged: the run still returns `True`
and the loaded table contents equal those of the same run with a working
email. -/
theorem load_raw_voters_C5 (env : Env) (f : SourceFile) (hf : locatedFile env = some f)
    (herr : (runStream env f).err = none) (hm : env.emailFails = true) :
    (load_raw_voters env).ok = true ∧
    (load_raw_voters env).db = (load_raw_voters { env with emailFails := false }).db := by
  have hf2 : locatedFile { env with emailFails := false } = some f := hf
  constructor
  · rw [load_eq_finishRun env f hf]
    exact (finishRun_ok env f).mpr herr
  · rw [load_eq_finishRun env f hf, load_eq_finishRun _ f hf2, finishRun_db, finishRun_db]
    rfl

/-- Claim C5 witness: the sample scenario with a raising `send_update_email`
still returns `True` and loads the same rows as with a working email. -/
theorem load_raw_voters_C5_witness :
    (load_raw_voters sampleEnvEmailFail).ok = true ∧
    (load_raw_voters sampleEnvEmailFail).db =
      (load_raw_voters { sampleEnvEmailFail with emailFails := false }).db :=
  load_raw_voters_C5 sampleEnvEmailFail sampleFile (by decide) (by decide) rfl

/-- Claim C3: loading the same source file twice in succession is
idempotent: a successful run leaves the table holding exactly one processed
copy of the current source file (the conditional truncation deletes all
prior rows before any append), and a second run over the resulting table
succeeds and reproduces identical contents. -/
theorem load_raw_voters_C3 (env : Env) (f : SourceFile) (hf : locatedFile env = some f)
    (hok : (load_raw_voters env).ok = true) :
    (load_raw_voters env).db = singleLoadRows env f ∧
    (load_raw_voters { env with dbRows := (load_raw_voters env).db }).ok = true ∧
    (load_raw_voters { env with dbRows := (load_raw_voters env).db }).db =
      (load_raw_voters env).db := by
  have h1 : (load_raw_voters env).db = singleLoadRows env f := load_success_db env f hf hok
  have hf2 : locatedFile { env with dbRows := (load_raw_voters env).db } = some f := hf
  have herr : (runStream env f).err = none := by
    rw [load_eq_finishRun env f hf] at hok
    exact (finishRun_ok env f).mp hok
  have hok2 : (load_raw_voters { env with dbRows := (load_raw_voters env).db }).ok = true := by
    rw [load_eq_finishRun _ f hf2]
    exact (finishRun_ok _ f).mpr herr
  refine ⟨h1, hok2, ?_⟩
  rw [load_success_db _ f hf2 hok2, h1]
  rfl

/-- Claim C3 witness: the theorem applied to the 2-row sample scenario. -/
theorem load_raw_voters_C3_witness :
    (load_raw_voters sampleEnv).db = singleLoadRows sampleEnv sampleFile ∧
    (load_raw_voters { sampleEnv with dbRows := (load_raw_voters sampleEnv).db }).ok = true ∧
    (load_raw_voters { sampleEnv with dbRows := (load_raw_voters sampleEnv).db }).db =
      (load_raw_voters sampleEnv).db :=
  load_raw_voters_C3 sampleEnv sampleFile (by decide) (by decide)

/-- Claim C6 counterexample: for a source file with two valid rows and one
malformed line (N = 2, K = 1), the run loads exactly the 2 valid rows, but
its complete log is the total-line count, a progress line, the loaded count
and the email notice — no event carries a skipped-line count, so the claimed
report of K = 1 skipped lines does not exist. -/
theorem load_raw_voters_C6_counterexample :
    (load_raw_voters skipEnv).db.length = 2 ∧
    (load_raw_voters skipEnv).log =
      [LogMsg.totalRows 3, .progress 2 3, .loadedRecords 2, .emailSent] ∧
    (load_raw_voters skipEnv).log.filterMap skippedLineReport = [] ∧
    (load_raw_voters skipEnv).log.filterMap skippedLineReport ≠ [1] := by decide

/-- Claim C6 amended: for every source file with N syntactically valid rows
and K malformed rows, a successful run loads exactly the N valid rows into
the table (the K malformed lines are skipped by `on_bad_lines='skip'`), but
no count of skipped lines is tracked or reported: no event of the run's log
carries a skipped-line count. -/
theorem load_raw_voters_C6_amended (env : Env) (f : SourceFile)
    (hf : locatedFile env = some f) (hok : (load_raw_voters env).ok = true) :
    (load_raw_voters env).db.length = (goodLines f).length ∧
    (load_raw_voters env).log.filterMap skippedLineReport = [] := by
  constructor
  · rw [load_success_db env f hf hok]
    unfold singleLoadRows
    exact List.length_map _ _
  · exact filterMap_skippedLineReport _

/-- Claim C6 witness: the amended theorem applied to the file with two
valid rows and one malformed line. -/
theorem load_raw_voters_C6_witness :
    (load_raw_voters skipEnv).db.length = (goodLines skipFile).length ∧
    (load_raw_voters skipEnv).log.filterMap skippedLineReport = [] :=
  load_raw_voters_C6_amended skipEnv skipFile (by decide) (by decide)

/-- Claim C7 counterexample: a source file missing the expected
`birth_year` column does not complete with a warning — the `KeyError` from
`chunk['birth_year']` aborts the run, which returns `False` having loaded
nothing. -/
theorem load_raw_voters_C7_counterexample :
    (load_raw_voters missingColEnv).ok = false ∧
    (load_raw_voters missingColEnv).db = [] := by decide

/-- Claim C7 amended: a source file missing the `birth_year` column (with
at least one data row) makes the run fail and return `False` — a fatal
error, not a logged warning; for files containing `birth_year` the loader
imposes no expected column set: every successful run's rows carry exactly
the file's normalised columns plus the derived `age_group`, so any extra
unexpected column's data passes through to the insert and any other missing
column is simply absent, without aborting the run. -/
theorem load_raw_voters_C7_amended (env : Env) (f : SourceFile)
    (hf : locatedFile env = some f) :
    (("birth_year" ∉ f.header.map normalizeCol) → goodLines f ≠ [] →
      (load_raw_voters env).ok = false) ∧
    ((load_raw_voters env).ok = true →
      ∀ r ∈ (load_raw_voters env).db,
        r.map Prod.fst = f.header.map normalizeCol ++ ["age_group"]) := by
  constructor
  · intro hb hne
    rw [load_eq_finishRun env f hf]
    have herr : (runStream env f).err = some .keyError := by
      unfold runStream
      cases hc : readChunks env.chunksize (goodLines f) with
      | nil => exact absurd hc (readChunks_ne_nil _ _ hne)
      | cons c rest =>
        unfold streamLoad
        rw [if_neg hb]
    cases h2 : (finishRun env f).ok with
    | false => rfl
    | true =>
      have := (finishRun_ok env f).mp h2
      rw [herr] at this
      cases this
  · intro hok r hr
    rw [load_success_db env f hf hok] at hr
    unfold singleLoadRows at hr
    rcases List.mem_map.mp hr with ⟨row, hrow, hr2⟩
    rw [← hr2]
    exact processRow_fst _ _ _

/-- Claim C7 witness: the amended theorem's fatal-KeyError part applied to
the file without a `birth_year` column. -/
theorem load_raw_voters_C7_witness :
    (load_raw_voters missingColEnv).ok = false :=
  (load_raw_voters_C7_amended missingColEnv missingColFile (by decide)).1
    (by decide) (by decide)

/-- Claim C2 counterexample: in calendar year 2025 the 1975 row's age is
50, which `calculate_age_group` puts in the bucket `36-50` (the claim's own
range [36,50] contains 50), not the claimed `51-65`: loading the 2-row
sample file produces `36-50` for both rows. -/
theorem load_raw_voters_C2_counterexample :
    (2025 : Int) - 1975 = 50 ∧
    calculate_age_group 2025 (some "1975") = "36-50" ∧
    calculate_age_group 2025 (some "1975") ≠ "51-65" ∧
    (load_raw_voters sampleEnv).db =
      [[("ncid", some "A1"), ("birth_year", some "1980"), ("age_group", some "36-50")],
       [("ncid", some "A2"), ("birth_year", some "1975"), ("age_group", some "36-50")]] := by
  decide

/-- Claim C2 amended: loading the 2-row sample file (birth years 1980 and
1975) with calendar year 2025 into an empty table produces age groups
`36-50` (age 45) and `36-50` (age 50); re-running the same load truncates
the table and reproduces the identical 2-row result. -/
theorem load_raw_voters_C2_amended :
    (load_raw_voters sampleEnv).ok = true ∧
    (load_raw_voters sampleEnv).db =
      [[("ncid", some "A1"), ("birth_year", some "1980"), ("age_group", some "36-50")],
       [("ncid", some "A2"), ("birth_year", some "1975"), ("age_group", some "36-50")]] ∧
    (load_raw_voters { sampleEnv with dbRows := (load_raw_voters sampleEnv).db }).ok = true ∧
    (load_raw_voters { sampleEnv with dbRows := (load_raw_voters sampleEnv).db }).db =
      (load_raw_voters sampleEnv).db ∧
    (load_raw_voters { sampleEnv with dbRows := (load_raw_voters sampleEnv).db }).log =
      [LogMsg.totalRows 2, .tableHasRows 2, .truncated, .progress 2 2,
        .loadedRecords 2, .emailSent] := by
  decide

end NCVotes
